import Mathlib

/-!
# CyberShield — verification of the analysis core

Shallow embedding of the analysis functions of the CyberShield repository:

* the Credential Metric Evaluator (`calculateMetrics` / `analyzePassword` in
  `src/components/PasswordChecker.tsx`),
* the PII/privacy pattern detector (`checkPopiaCompliance`, same file),
* the scan-history store of `src/components/LogAnalyzer.tsx`
  (`performAnalysis` and the pre-seeded `scanHistory`),
* the rule-based log-risk classifier fallback (modelled from the spec, since
  the backend service code is not part of the frontend sources).

Strings are embedded as `List Char`; the JavaScript floating point numbers are
idealised as exact reals (for `Math.log2`/`Math.floor`) and exact rationals
(for the crack-time estimate).
-/

namespace CyberShield

/-! ## Character classes (the regex character tests of `calculateMetrics`) -/

/-- `inRange lo hi c` holds when the code point of `c` lies in `[lo, hi]`. -/
def inRange (lo hi : Nat) (c : Char) : Bool :=
  decide (lo ≤ c.toNat ∧ c.toNat ≤ hi)

/-- The regex test `/[a-z]/` on a single character. -/
def isLowerCh (c : Char) : Bool := inRange 97 122 c

/-- The regex test `/[A-Z]/` on a single character. -/
def isUpperCh (c : Char) : Bool := inRange 65 90 c

/-- The regex test `/[0-9]/` on a single character. -/
def isDigitCh (c : Char) : Bool := inRange 48 57 c

/-- The regex test `/[^A-Za-z0-9]/` on a single character. -/
def isSymbolCh (c : Char) : Bool := !(isLowerCh c || isUpperCh c || isDigitCh c)

/-! ## Credential Metric Evaluator (`calculateMetrics`) -/

/-- The charset pool size `R`: 26 for lowercase, 26 for uppercase, 10 for
digits and 33 for symbols, summed over the classes present in `val`. -/
def charsetSize (val : List Char) : Nat :=
  (if val.any isLowerCh = true then 26 else 0) +
  (if val.any isUpperCh = true then 26 else 0) +
  (if val.any isDigitCh = true then 10 else 0) +
  (if val.any isSymbolCh = true then 33 else 0)

/-- `Math.floor(val.length * Math.log2(charsetSize))`, with the early return
of `0` for the empty string.  JavaScript doubles are idealised as reals. -/
noncomputable def calcEntropy (val : List Char) : ℤ :=
  if val = [] then 0
  else ⌊(val.length : ℝ) * Real.logb 2 (charsetSize val)⌋

/-- `Math.pow(charsetSize, val.length) / 100_000_000_000`, idealised as an
exact rational. -/
def secondsToCrack (val : List Char) : ℚ :=
  (charsetSize val : ℚ) ^ val.length / 100000000000

/-- The crack-time bucket cascade of `calculateMetrics`, testing the largest
threshold first. -/
def crackTimeOf (v : ℚ) : String :=
  if 31536000000 < v then "Centuries"
  else if 315360000 < v then "Decades"
  else if 31536000 < v then "Years"
  else if 2592000 < v then "Months"
  else if 86400 < v then "Days"
  else if 3600 < v then "Hours"
  else if 60 < v then "Minutes"
  else if 1 < v then "Seconds"
  else "Instantly"

/-- The crack-time field of `calculateMetrics`, including the early return
of `Instantly` for the empty string. -/
def crackTimeFor (val : List Char) : String :=
  if val = [] then "Instantly" else crackTimeOf (secondsToCrack val)

/-- The heuristic score of `calculateMetrics`: one point each for length at
least 8, an uppercase letter, a digit, a symbol, and length at least 14; the
empty string is scored 0 by the early return. -/
def calcScore (val : List Char) : Nat :=
  if val = [] then 0
  else
    (if 8 ≤ val.length then 1 else 0) +
    (if val.any isUpperCh = true then 1 else 0) +
    (if val.any isDigitCh = true then 1 else 0) +
    (if val.any isSymbolCh = true then 1 else 0) +
    (if 14 ≤ val.length then 1 else 0)

/-! ## Suggestions and grading (`analyzePassword`) -/

/-- The suggestion list built by `analyzePassword`, in source order. -/
def suggestionsFor (val : List Char) : List String :=
  (if val.length < 12 then ["Increase length to 12+ for Enterprise Compliance"] else []) ++
  (if val.any isUpperCh = false then ["Include uppercase characters"] else []) ++
  (if val.any isSymbolCh = false then ["Include special symbols (!@#$%)"] else [])

/-- The label/colour/compliance/risk quadruple assigned by `analyzePassword`. -/
structure Grade where
  label : String
  color : String
  compliance : String
  risk : String
  deriving DecidableEq, Repr

/-- The if-chain of `analyzePassword` assigning the grade from the score;
the empty string keeps the initial label `Very Weak` and only switches the
colour to the zero-state slate. -/
def gradeFor (val : List Char) : Grade :=
  if val.length = 0 then
    { label := "Very Weak", color := "bg-slate-700", compliance := "Non-Compliant", risk := "Critical" }
  else if calcScore val ≤ 1 then
    { label := "Weak", color := "bg-red-400", compliance := "Non-Compliant", risk := "Critical" }
  else if calcScore val ≤ 3 then
    { label := "Medium", color := "bg-yellow-400", compliance := "Partially Compliant", risk := "Elevated" }
  else if calcScore val = 4 then
    { label := "Strong", color := "bg-green-400", compliance := "NIST-Standard", risk := "Secure" }
  else
    { label := "Excellent", color := "bg-emerald-500", compliance := "NIST-Standard", risk := "Secure" }

/-- The strength label of `analyzePassword`. -/
def labelFor (val : List Char) : String := (gradeFor val).label

/-! ## PII/Privacy pattern detector (`checkPopiaCompliance`) -/

/-- The warning string returned when the South African ID pattern matches. -/
def saIdAlertMsg : String :=
  "POPIA ALERT: Detected potential South African ID number. Processing sensitive PII in a password field is non-compliant with local data privacy laws."

/-- The warning string returned when the phone pattern matches. -/
def phoneAlertMsg : String :=
  "PRIVACY WARNING: Detected potential contact number. Using personal identifiers as passwords increases brute-force vulnerability via social engineering."

/-- The anchored regex
`^[0-9]\x7b2\x7d(0[1-9]|1[0-2])(0[1-9]|[12][0-9]|3[01])[0-9]\x7b7\x7d$`:
exactly 13 digits with the month in 01..12 and the day in 01..31. -/
def saIdMatch : List Char → Bool
  | [y1, y2, m1, m2, d1, d2, r1, r2, r3, r4, r5, r6, r7] =>
      isDigitCh y1 && isDigitCh y2 &&
      ((m1 == '0' && inRange 49 57 m2) || (m1 == '1' && inRange 48 50 m2)) &&
      ((d1 == '0' && inRange 49 57 d2) || ((d1 == '1' || d1 == '2') && isDigitCh d2) ||
        (d1 == '3' && (d2 == '0' || d2 == '1'))) &&
      isDigitCh r1 && isDigitCh r2 && isDigitCh r3 && isDigitCh r4 &&
      isDigitCh r5 && isDigitCh r6 && isDigitCh r7
  | _ => false

/-- The character class matched by the regex `\s` (whitespace). -/
def isSpaceCh (c : Char) : Bool :=
  c == ' ' || c == '\t' || c == '\n' || c == '\r' || c.toNat == 11 || c.toNat == 12

/-- The ways the optional `\s?` can split the remaining input: either match
nothing, or consume one leading whitespace character. -/
def optSp : List Char → List (List Char)
  | [] => [[]]
  | c :: rest => if isSpaceCh c = true then [c :: rest, rest] else [c :: rest]

/-- Consume exactly `n` digits, returning the rest of the input. -/
def takeDigits : Nat → List Char → Option (List Char)
  | 0, l => some l
  | _ + 1, [] => none
  | n + 1, c :: rest => if isDigitCh c = true then takeDigits n rest else none

/-- The tail `\s?([0-9]\x7b3\x7d)\s?([0-9]\x7b4\x7d)$` of the phone regex. -/
def phoneTailPart (l : List Char) : Bool :=
  (optSp l).any (fun l2 =>
    match takeDigits 3 l2 with
    | some l3 =>
        (optSp l3).any (fun l4 =>
          match takeDigits 4 l4 with
          | some [] => true
          | _ => false)
    | none => false)

/-- The part `\s?([6-8][0-9])` following the country code, then the tail. -/
def phoneAfterCode (l : List Char) : Bool :=
  (optSp l).any (fun l2 =>
    match l2 with
    | c1 :: c2 :: rest => inRange 54 56 c1 && isDigitCh c2 && phoneTailPart rest
    | _ => false)

/-- The anchored regex
`^((\+27|0)\s?([6-8][0-9])\s?([0-9]\x7b3\x7d)\s?([0-9]\x7b4\x7d))$`. -/
def phoneMatch : List Char → Bool
  | '+' :: '2' :: '7' :: rest => phoneAfterCode rest
  | '0' :: rest => phoneAfterCode rest
  | _ => false

/-- `checkPopiaCompliance`: the ID check runs first, then the phone check;
first match wins, otherwise `none`. -/
def checkPopiaCompliance (val : List Char) : Option String :=
  if saIdMatch val = true then some saIdAlertMsg
  else if phoneMatch val = true then some phoneAlertMsg
  else none

/-! ## The assembled evaluator result (`analyzePassword` state update) -/

/-- The `PasswordStrength` record built by `analyzePassword`. -/
structure PasswordStrengthR where
  score : Nat
  label : String
  color : String
  suggestions : List String
  entropy : ℤ
  complianceRating : String
  riskProfile : String
  crackTime : String
  popiaWarning : Option String

/-- `analyzePassword` as a pure function from the input to the strength
record it stores. -/
noncomputable def analyzePasswordFn (val : List Char) : PasswordStrengthR :=
  { score := calcScore val
    label := (gradeFor val).label
    color := (gradeFor val).color
    suggestions := suggestionsFor val
    entropy := calcEntropy val
    complianceRating := (gradeFor val).compliance
    riskProfile := (gradeFor val).risk
    crackTime := crackTimeFor val
    popiaWarning := checkPopiaCompliance val }

/-! ## Scan history store (`LogAnalyzer.tsx`) -/

/-- The risk level of a suspicious event. -/
inductive Risk
  | low
  | medium
  | high
  deriving DecidableEq, Repr

/-- The severity bucket stored on a history entry. -/
inductive Status
  | green
  | yellow
  | red
  deriving DecidableEq, Repr

/-- A suspicious event in the frontend `AnalysisResult` shape. -/
structure SEvent where
  event : String
  riskLevel : Risk
  explanation : String
  deriving DecidableEq, Repr

/-- The frontend `AnalysisResult` record. -/
structure AnalysisResultR where
  summary : String
  suspiciousEvents : List SEvent
  recommendations : List String
  deriving DecidableEq, Repr

/-- A suspicious event as delivered by the API (`SuspiciousEvent`). -/
structure ApiEvent where
  event : String
  riskLevel : Risk
  explanation : String
  deriving DecidableEq, Repr

/-- The API `LogAnalysisResult` shape consumed by `performAnalysis`. -/
structure ApiLogResult where
  summary : String
  suspiciousEvents : List ApiEvent
  recommendations : List String
  analysisId : String
  timestamp : String
  deriving DecidableEq, Repr

/-- A `HistoricalScan` entry of the scan-history store. -/
structure HistoricalScanR where
  id : String
  timestamp : String
  title : String
  status : Status
  result : AnalysisResultR
  rawLogs : String
  deriving DecidableEq, Repr

/-- The severity derivation of the spec: red if any event is High, else
yellow if any is Medium, else green. -/
def deriveStatus (events : List SEvent) : Status :=
  if events.any (fun e => decide (e.riskLevel = Risk.high)) = true then Status.red
  else if events.any (fun e => decide (e.riskLevel = Risk.medium)) = true then Status.yellow
  else Status.green

/-- The event conversion of `performAnalysis` from the API shape to the
frontend shape. -/
def convEvent (e : ApiEvent) : SEvent :=
  { event := e.event, riskLevel := e.riskLevel, explanation := e.explanation }

/-- The new `HistoricalScan` built by `performAnalysis` from an API result;
the fallback id (`scan-` plus the clock) and the timestamp are parameters
since they come from the wall clock. -/
def mkScan (api : ApiLogResult) (logs : List Char) (fallbackId ts : String) :
    HistoricalScanR :=
  let hasHigh := api.suspiciousEvents.any (fun e => decide (e.riskLevel = Risk.high))
  let hasMedium := api.suspiciousEvents.any (fun e => decide (e.riskLevel = Risk.medium))
  { id := if api.analysisId = "" then fallbackId else api.analysisId
    timestamp := ts
    title := if 20 < logs.length then String.mk (logs.take 20) ++ "..." else "Quick Log Audit"
    status := if hasHigh = true then Status.red
              else if hasMedium = true then Status.yellow
              else Status.green
    result := { summary := api.summary
                suspiciousEvents := api.suspiciousEvents.map convEvent
                recommendations := api.recommendations }
    rawLogs := String.mk logs }

/-- The first pre-seeded history entry (`scan-1`, Auth.log Audit). -/
def seedScan1 (ts : String) : HistoricalScanR :=
  { id := "scan-1"
    timestamp := ts
    title := "Auth.log Audit"
    status := Status.red
    result := { summary := "Detected brute-force patterns on SSH port."
                suspiciousEvents :=
                  [{ event := "Brute Force Attempt", riskLevel := Risk.high,
                     explanation := "42 failed logins in 3 seconds from 192.168.1.45" }]
                recommendations := ["Ban IP 192.168.1.45", "Disable root SSH login"] }
    rawLogs := "Oct 12 14:02:01 server-01 sshd[1234]: Failed password for root from 192.168.1.45 port 54321 ssh2..." }

/-- The second pre-seeded history entry (`scan-2`, NGINX Traffic Scan). -/
def seedScan2 (ts : String) : HistoricalScanR :=
  { id := "scan-2"
    timestamp := ts
    title := "NGINX Traffic Scan"
    status := Status.yellow
    result := { summary := "Multiple 404 errors on sensitive endpoints."
                suspiciousEvents :=
                  [{ event := "Endpoint Scanning", riskLevel := Risk.medium,
                     explanation := "Requests to /admin, /config, and /.env detected." }]
                recommendations := ["Implement rate limiting", "Check WAF rules"] }
    rawLogs := "127.0.0.1 - - [12/Oct/2023:13:00:01 +0000] \"GET /admin HTTP/1.1\" 404..." }

/-- The initial `scanHistory` state, parameterised over the two wall-clock
timestamps. -/
def initialHistory (ts1 ts2 : String) : List HistoricalScanR :=
  [seedScan1 ts1, seedScan2 ts2]

/-- The store insertion `prev => [newScan, ...prev]`: prepend. -/
def appendScan (s : HistoricalScanR) (h : List HistoricalScanR) :
    List HistoricalScanR := s :: h

/-- The store read-out: the list as held, most recent first. -/
def listScans (h : List HistoricalScanR) : List HistoricalScanR := h

/-- The states the scan-history store can reach: the pre-seeded list, plus
any number of `performAnalysis` insertions. -/
inductive HistReachable : List HistoricalScanR → Prop
  | init (ts1 ts2 : String) : HistReachable (initialHistory ts1 ts2)
  | step (h : List HistoricalScanR) (api : ApiLogResult) (logs : List Char)
      (fid ts : String) :
      HistReachable h → HistReachable (appendScan (mkScan api logs fid ts) h)

/-! ## Rule-based log-risk classifier (fallback) -/

/-- Whether `p` is a leading segment of `s`. -/
def isPrefList : List Char → List Char → Bool
  | [], _ => true
  | _ :: _, [] => false
  | a :: as, b :: bs => a == b && isPrefList as bs

/-- Whether `p` occurs as a contiguous substring of `s`. -/
def containsSub : List Char → List Char → Bool
  | p, [] => p.isEmpty
  | p, c :: rest => isPrefList p (c :: rest) || containsSub p rest

/-- A signature rule of the fallback classifier. -/
structure LogRule where
  name : String
  pattern : List Char
  riskLevel : Risk
  explanation : String

/-- Modelled from the spec: the ordered signature rule set of the rule-based
fallback classifier (`backend/services/log_analyzer.py` is not among the
frontend sources).  Per spec section 4.3 it covers at minimum repeated
authentication-failure bursts (brute force, High severity), SQL
metacharacters, script-injection markers, directory traversal, privilege
escalation keywords, and port probing. -/
def fallbackRules : List LogRule :=
  [ { name := "Brute Force Attempt", pattern := "Failed password".toList,
      riskLevel := Risk.high,
      explanation := "Repeated authentication failures indicate a password-guessing attack." },
    { name := "SQL Injection Attempt", pattern := "UNION SELECT".toList,
      riskLevel := Risk.high,
      explanation := "SQL metacharacter sequence detected in request data." },
    { name := "Script Injection Attempt", pattern := "<script>".toList,
      riskLevel := Risk.medium,
      explanation := "Script markers detected in logged input." },
    { name := "Directory Traversal", pattern := "../".toList,
      riskLevel := Risk.medium,
      explanation := "Relative path traversal sequence detected." },
    { name := "Privilege Escalation", pattern := "sudo".toList,
      riskLevel := Risk.medium,
      explanation := "Privilege escalation keyword detected." },
    { name := "Port Scanning", pattern := "nmap".toList,
      riskLevel := Risk.low,
      explanation := "Sequential probing tool signature detected." } ]

/-- The summary used when no rule fires. -/
def noCriticalSummary : String :=
  "No critical suspicious activity found in the log sample."

/-- Modelled from the spec: the rule-based fallback `classify` contract of
spec section 4.3 (the backend implementation is not among the frontend
sources).  Every rule whose pattern occurs in the log text emits one event;
when no rule fires the summary states that no critical activity was found,
the event list is empty and generic hygiene recommendations are returned. -/
def classifyQuick (logText : List Char) : AnalysisResultR :=
  let fired := fallbackRules.filter (fun r => containsSub r.pattern logText)
  let events : List SEvent :=
    fired.map (fun r => { event := r.name, riskLevel := r.riskLevel, explanation := r.explanation })
  { summary :=
      if events.isEmpty then noCriticalSummary
      else "Rule-based scan flagged " ++ toString events.length ++
        " suspicious pattern(s); review the highest-severity findings first."
    suspiciousEvents := events
    recommendations :=
      if events.isEmpty then
        ["Maintain regular patching", "Enable multi-factor authentication"]
      else if fired.any (fun r => decide (r.riskLevel = Risk.high)) then
        ["Ban the offending source IP addresses", "Disable password-based remote login"]
      else ["Review the flagged log entries"] }

/-! ## Spec-side crack-time bucket selection

The specification words the bucket rule as: among the ascending thresholds,
choose the largest bucket whose threshold the value strictly exceeds,
defaulting to Instantly. -/

/-- The ascending threshold table of the spec. -/
def specThresholds : List (String × ℚ) :=
  [("Seconds", 1), ("Minutes", 60), ("Hours", 3600), ("Days", 86400),
   ("Months", 2592000), ("Years", 31536000), ("Decades", 315360000),
   ("Centuries", 31536000000)]

/-- Walk the ascending table and keep the last bucket whose threshold the
value strictly exceeds. -/
def lastExceeded : List (String × ℚ) → ℚ → String → String
  | [], _, acc => acc
  | (n, t) :: rest, v, acc => lastExceeded rest v (if t < v then n else acc)

/-- The bucket the spec words select for a value, `Instantly` when no
threshold is exceeded. -/
def specBucket (v : ℚ) : String := lastExceeded specThresholds v "Instantly"

/-! ## Helper lemmas -/

theorem lower_not_upper {c : Char} (h : isLowerCh c = true) : isUpperCh c = false := by
  simp only [isLowerCh, inRange, decide_eq_true_eq] at h
  simp only [isUpperCh, inRange, decide_eq_false_iff_not]
  omega

theorem lower_not_digit {c : Char} (h : isLowerCh c = true) : isDigitCh c = false := by
  simp only [isLowerCh, inRange, decide_eq_true_eq] at h
  simp only [isDigitCh, inRange, decide_eq_false_iff_not]
  omega

theorem lower_not_symbol {c : Char} (h : isLowerCh c = true) : isSymbolCh c = false := by
  simp [isSymbolCh, h]

theorem isPrefList_self_append (p v : List Char) : isPrefList p (p ++ v) = true := by
  induction p with
  | nil => rfl
  | cons a as ih => simp [isPrefList, ih]

theorem containsSub_append (p u v : List Char) : containsSub p (u ++ (p ++ v)) = true := by
  induction u with
  | nil =>
      show containsSub p (p ++ v) = true
      cases p with
      | nil =>
          cases v with
          | nil => rfl
          | cons c cs => simp [containsSub, isPrefList]
      | cons a as =>
          have h := isPrefList_self_append (a :: as) v
          rw [List.cons_append] at h
          simp [containsSub, h]
  | cons a u ih =>
      simp [containsSub, ih]

theorem len12_13_score4_no_sugg (s : List Char) (h1 : 12 ≤ s.length)
    (h2 : s.length ≤ 13) (hsc : 4 ≤ calcScore s) : suggestionsFor s = [] := by
  have hne : s ≠ [] := by
    intro h
    subst h
    simp at h1
  have h14 : ¬ 14 ≤ s.length := by omega
  cases hu : s.any isUpperCh with
  | false =>
      exfalso
      have hle : calcScore s ≤ 3 := by
        simp only [calcScore, if_neg hne,
          if_neg (show ¬ s.any isUpperCh = true by simp [hu]), if_neg h14]
        split_ifs <;> omega
      omega
  | true =>
      cases hsy : s.any isSymbolCh with
      | false =>
          exfalso
          have hle : calcScore s ≤ 3 := by
            simp only [calcScore, if_neg hne,
              if_neg (show ¬ s.any isSymbolCh = true by simp [hsy]), if_neg h14]
            split_ifs <;> omega
          omega
      | true =>
          simp [suggestionsFor, hu, hsy, show ¬ s.length < 12 by omega]

/-! ## Claim theorems -/

/-- Claim C1, counterexample: on the empty string, `analyzePassword` does not
return an empty suggestions list. -/
theorem c1_counterexample : (analyzePasswordFn []).suggestions ≠ [] := by
  simp [analyzePasswordFn, suggestionsFor]

/-- Claim C1 as amended: for the empty input string, the evaluator returns
entropy 0, score 0, crack time Instantly and the Very Weak zero-state label,
and the suggestions list holds exactly the three generic suggestions
(increase length, include uppercase, include symbols). -/
theorem c1_empty_input :
    (analyzePasswordFn []).entropy = 0 ∧
    (analyzePasswordFn []).score = 0 ∧
    (analyzePasswordFn []).crackTime = "Instantly" ∧
    (analyzePasswordFn []).label = "Very Weak" ∧
    (analyzePasswordFn []).suggestions =
      ["Increase length to 12+ for Enterprise Compliance",
       "Include uppercase characters",
       "Include special symbols (!@#$%)"] := by
  refine ⟨?_, ?_, ?_, ?_, ?_⟩
  · simp [analyzePasswordFn, calcEntropy]
  · simp [analyzePasswordFn, calcScore]
  · simp [analyzePasswordFn, crackTimeFor]
  · simp [analyzePasswordFn, labelFor, gradeFor]
  · simp [analyzePasswordFn, suggestionsFor]

/-- Claim C2: every string of length at least 14 containing a lowercase
letter, an uppercase letter, a digit and a symbol scores exactly 5 and is
labelled Excellent. -/
theorem c2_fourclass_excellent (s : List Char) (h14 : 14 ≤ s.length)
    (hl : s.any isLowerCh = true) (hu : s.any isUpperCh = true)
    (hd : s.any isDigitCh = true) (hsy : s.any isSymbolCh = true) :
    calcScore s = 5 ∧ labelFor s = "Excellent" := by
  have hne : s ≠ [] := by
    intro h
    subst h
    simp at h14
  have h8 : 8 ≤ s.length := by omega
  have hsc : calcScore s = 5 := by
    simp only [calcScore, if_neg hne, if_pos h8, if_pos hu, if_pos hd, if_pos hsy, if_pos h14]
  refine ⟨hsc, ?_⟩
  have h0 : ¬ s.length = 0 := by omega
  simp [labelFor, gradeFor, hsc, h0]

/-- Witness for C2 at a concrete 14-character input with all four classes. -/
theorem c2_witness :
    calcScore ("Aa1!aaaaaaaaaa".toList) = 5 ∧
    labelFor ("Aa1!aaaaaaaaaa".toList) = "Excellent" :=
  c2_fourclass_excellent _ (by decide) (by decide) (by decide) (by decide) (by decide)

/-- Claim C3: for every non-empty string of ASCII lowercase letters only,
the entropy result is the floor of length times log2 of 26. -/
theorem c3_lowercase_entropy (s : List Char) (hne : s ≠ [])
    (hlow : ∀ c ∈ s, isLowerCh c = true) :
    calcEntropy s = ⌊(s.length : ℝ) * Real.logb 2 26⌋ := by
  have hl : s.any isLowerCh = true := by
    cases s with
    | nil => exact absurd rfl hne
    | cons c cs =>
        simp only [List.any_cons, Bool.or_eq_true]
        exact Or.inl (hlow c (List.mem_cons_self c cs))
  have hu : s.any isUpperCh = false := by
    rw [List.any_eq_false]
    intro c hc
    simp [lower_not_upper (hlow c hc)]
  have hd : s.any isDigitCh = false := by
    rw [List.any_eq_false]
    intro c hc
    simp [lower_not_digit (hlow c hc)]
  have hsy : s.any isSymbolCh = false := by
    rw [List.any_eq_false]
    intro c hc
    simp [lower_not_symbol (hlow c hc)]
  have hcs : charsetSize s = 26 := by
    simp [charsetSize, hl, hu, hd, hsy]
  simp only [calcEntropy, if_neg hne, hcs]
  norm_num

/-- Witness for C3 at the concrete input abc. -/
theorem c3_witness :
    calcEntropy ("abc".toList) = ⌊(("abc".toList).length : ℝ) * Real.logb 2 26⌋ :=
  c3_lowercase_entropy _ (by decide) (by decide)

/-- Claim C4: for every non-empty input the crack-time bucket of the code
equals the bucket the spec words select for the value R to the power of the
length divided by 1e11. -/
theorem c4_cracktime_bucket (s : List Char) (hne : s ≠ []) :
    crackTimeFor s = specBucket (secondsToCrack s) := by
  unfold crackTimeFor
  rw [if_neg hne]
  rfl

/-- Witness for C4 at the concrete input a. -/
theorem c4_witness : crackTimeFor ("a".toList) = specBucket (secondsToCrack ("a".toList)) :=
  c4_cracktime_bucket _ (by decide)

/-- Claim C5, counterexample: there is no input of length 12 or 13 whose
score is at least 4 and whose suggestions list is non-empty. -/
theorem c5_counterexample :
    ¬ ∃ s : List Char, (s.length = 12 ∨ s.length = 13) ∧ 4 ≤ calcScore s ∧
      suggestionsFor s ≠ [] := by
  rintro ⟨s, hlen, hsc, hsugg⟩
  rcases hlen with h | h
  · exact hsugg (len12_13_score4_no_sugg s (by omega) (by omega) hsc)
  · exact hsugg (len12_13_score4_no_sugg s (by omega) (by omega) hsc)

/-- Claim C5 as amended: at lengths 12 and 13 a score of at least 4 forces
an empty suggestions list; the suggestions/label decoupling instead occurs
from length 14 on, where a Strong (score 4) input can still have a
non-empty suggestions list. -/
theorem c5_suggestions_decoupling :
    (∀ s : List Char, (s.length = 12 ∨ s.length = 13) → 4 ≤ calcScore s →
      suggestionsFor s = []) ∧
    (calcScore ("ABCDEFGHIJKL12".toList) = 4 ∧
      labelFor ("ABCDEFGHIJKL12".toList) = "Strong" ∧
      suggestionsFor ("ABCDEFGHIJKL12".toList) ≠ []) := by
  constructor
  · intro s hlen hsc
    rcases hlen with h | h
    · exact len12_13_score4_no_sugg s (by omega) (by omega) hsc
    · exact len12_13_score4_no_sugg s (by omega) (by omega) hsc
  · exact ⟨by decide, by decide, by decide⟩

/-- Witness for the amended C5 at a concrete 12-character score-4 input. -/
theorem c5_witness : suggestionsFor ("Aa1!aaaaaaaa".toList) = [] :=
  c5_suggestions_decoupling.1 _ (Or.inl (by decide)) (by decide)

/-- Claim C6: every entry the history store can ever hold, the pre-seeded
ones included, carries the severity derived from its own event list. -/
theorem c6_severity_invariant (h : List HistoricalScanR) (hr : HistReachable h) :
    ∀ scan ∈ h, scan.status = deriveStatus scan.result.suspiciousEvents := by
  induction hr with
  | init ts1 ts2 =>
      intro scan hs
      simp only [initialHistory, List.mem_cons, List.not_mem_nil, or_false] at hs
      rcases hs with rfl | rfl
      · rfl
      · rfl
  | step h api logs fid ts hr ih =>
      intro scan hs
      simp only [appendScan, List.mem_cons] at hs
      rcases hs with rfl | htail
      · simp [mkScan, deriveStatus, List.any_map, convEvent, Function.comp]
      · exact ih scan htail

/-- Witness for C6 at the first pre-seeded entry of the initial store. -/
theorem c6_witness :
    (seedScan1 "t1").status = deriveStatus (seedScan1 "t1").result.suspiciousEvents :=
  c6_severity_invariant (initialHistory "t1" "t2") (HistReachable.init "t1" "t2")
    (seedScan1 "t1") (by simp [initialHistory])

/-- Claim C7: appending a then b to any history state lists b, then a, then
the previous contents — insertion prepends, most recent first. -/
theorem c7_history_prepend (h : List HistoricalScanR) (a b : HistoricalScanR) :
    listScans (appendScan b (appendScan a h)) = b :: a :: listScans h := rfl

/-- Claim C8: the valid-shaped 13-digit ID string returns the national-ID
warning (the ID check runs first), and hello returns none. -/
theorem c8_popia_examples :
    checkPopiaCompliance ("8001015009087".toList) = some saIdAlertMsg ∧
    checkPopiaCompliance ("hello".toList) = none :=
  ⟨by decide, by decide⟩

/-- Claim C9: the rule-based fallback classifies the empty log text with
zero events and the no-critical-activity summary, and any text containing
the Failed password signature twice yields a High-risk brute-force event. -/
theorem c9_classifier_fallback :
    (classifyQuick []).suspiciousEvents = [] ∧
    (classifyQuick []).summary = noCriticalSummary ∧
    ∀ u v w : List Char,
      ∃ e, e ∈ (classifyQuick (u ++ ("Failed password".toList ++
          (v ++ ("Failed password".toList ++ w))))).suspiciousEvents ∧
        e.riskLevel = Risk.high ∧ e.event = "Brute Force Attempt" := by
  refine ⟨by rfl, by rfl, ?_⟩
  intro u v w
  have hsub : containsSub ("Failed password".toList)
      (u ++ ("Failed password".toList ++ (v ++ ("Failed password".toList ++ w)))) = true :=
    containsSub_append _ u _
  have hmem : ({ name := "Brute Force Attempt", pattern := "Failed password".toList,
                 riskLevel := Risk.high,
                 explanation := "Repeated authentication failures indicate a password-guessing attack." } : LogRule)
      ∈ fallbackRules.filter (fun r => containsSub r.pattern
          (u ++ ("Failed password".toList ++ (v ++ ("Failed password".toList ++ w))))) :=
    List.mem_filter.mpr ⟨by simp [fallbackRules], hsub⟩
  refine ⟨{ event := "Brute Force Attempt", riskLevel := Risk.high,
            explanation := "Repeated authentication failures indicate a password-guessing attack." },
          ?_, rfl, rfl⟩
  show _ ∈ (fallbackRules.filter (fun r => containsSub r.pattern
      (u ++ ("Failed password".toList ++ (v ++ ("Failed password".toList ++ w)))))).map
      (fun r => ({ event := r.name, riskLevel := r.riskLevel,
                   explanation := r.explanation } : SEvent))
  exact List.mem_map_of_mem _ hmem

/-- Claim C10: the PII patterns are anchored — a string whose ID or phone
occurrences are all proper substrings, and which itself matches neither
pattern, returns none; and a warning is produced only when the entire input
matches the ID or phone pattern. -/
theorem c10_anchored_patterns :
    (∀ s t u v : List Char, (saIdMatch t || phoneMatch t) = true → u ++ t ++ v = s →
        (u ≠ [] ∨ v ≠ []) → (saIdMatch s || phoneMatch s) = false →
        checkPopiaCompliance s = none) ∧
    (∀ s : List Char, checkPopiaCompliance s ≠ none →
        (saIdMatch s || phoneMatch s) = true) := by
  constructor
  · intro s t u v hpat heq hproper hs
    have h12 : saIdMatch s = false ∧ phoneMatch s = false := by simpa using hs
    simp [checkPopiaCompliance, h12.1, h12.2]
  · intro s hne
    cases h1 : saIdMatch s with
    | true => simp [h1]
    | false =>
        cases h2 : phoneMatch s with
        | true => simp [h2]
        | false => exact absurd (by simp [checkPopiaCompliance, h1, h2]) hne

/-- Witness for C10: the ID embedded with one extra leading character yields
no warning. -/
theorem c10_witness : checkPopiaCompliance ("X8001015009087".toList) = none :=
  c10_anchored_patterns.1 ("X8001015009087".toList) ("8001015009087".toList) ['X'] []
    (by decide) (by decide) (Or.inl (by decide)) (by decide)

end CyberShield
